import Mathlib

/-!
Verification development for the hackathon-microsoft-agro repository.

Shallow embedding of the two source modules under `src/openai-cosmosdb`:

* `agrodata.py` — the Record Store (`AgroDatabase`): filtered read queries over
  the `produtosformulados` and `produtostecnicos` Cosmos DB containers.
* `openai-model.py` — the Lookup Service (`get_pesticides_by_crop_and_common_name`,
  `get_pesticides_by_crop_and_scientific_name`) and the Tool Dispatcher
  (`EventHandler.handle_requires_action` / `submit_tool_outputs`).

Modelling conventions:

* A stored document is a `Rec`: an association list of string attributes.
  A pandas `DataFrame` of query results is a `List Rec` (rows in order).
* The Cosmos SQL predicate `c.FIELD LIKE '%v%'` is a case-sensitive substring
  match on the record's `FIELD` attribute; a record without the attribute does
  not match (`likeMatch`).
* Python exceptions are modelled by `Option`: a function that can raise returns
  `none` exactly where the Python code raises
  (`pandas.sample` raising `ValueError` when asked for more rows than exist,
  `drop_duplicates(subset=...)` raising `KeyError` on an empty frame,
  `None.drop_duplicates` raising `AttributeError` when a plural query is given
  an empty name list).
* `pandas.DataFrame.sample(n)` draws `n` distinct rows chosen by the RNG; it is
  modelled by an explicit `seed` parameter selecting a rotation of the row list,
  which keeps the two defining properties of the source call: it fails iff
  `n` exceeds the population, and on success it returns `n` rows at distinct
  positions.
* Python in-place mutation of a caller's list argument
  (`common_name[k] = ...`) is modelled by returning the post-call contents of
  the caller's argument alongside the result.
* The source wraps the final brand list in Python `str(...)`; that rendering is
  injective on the sampled list and is omitted: the embedded functions return
  the list itself as the payload.
-/

/-- One stored document / one row of a pandas `DataFrame`:
an association list from attribute name to string value. -/
abbrev Rec := List (String × String)

/-- The two fixed collections of the store
(`produtosformulados` and `produtostecnicos`). -/
structure Database where
  formulados : List Rec
  tecnicos : List Rec

/-- Character-list version of `startsWith`. -/
def startsWithChars : List Char → List Char → Bool
  | [], _ => true
  | _ :: _, [] => false
  | a :: as, b :: bs => a == b && startsWithChars as bs

/-- Character-list substring occurrence test. -/
def hasInfixChars (pat hay : List Char) : Bool :=
  match hay with
  | [] => startsWithChars pat []
  | _ :: bs => startsWithChars pat hay || hasInfixChars pat bs

/-- Case-sensitive substring containment, the semantics of the
Cosmos SQL `LIKE '%pat%'` predicate used by every store query. -/
def containsSubstr (hay pat : String) : Bool :=
  hasInfixChars pat.data hay.data

/-- ASCII lower-casing of one character, the effect of Python `str.lower` on
the characters appearing in this store. -/
def lowerChar (c : Char) : Char :=
  if 'A' ≤ c ∧ c ≤ 'Z' then Char.ofNat (c.toNat + 32) else c

/-- Python `str.split(' ')` on a character list: cut at every single space,
keeping empty pieces between consecutive spaces. -/
def splitOnSpace : List Char → List (List Char)
  | [] => [[]]
  | c :: cs =>
    let rest := splitOnSpace cs
    if c = ' ' then [] :: rest
    else
      match rest with
      | [] => [[c]]
      | w :: ws => (c :: w) :: ws

/-- Python `'-'.join(...)` on character-list pieces. -/
def joinHyphen : List (List Char) → List Char
  | [] => []
  | [w] => w
  | w :: ws => w ++ '-' :: joinHyphen ws

/-- pandas-style keep-first deduplication on a key, with an accumulator of the
key values already kept. -/
def dropDuplicatesByAux {α β : Type} [DecidableEq β] (key : α → β) :
    List β → List α → List α
  | _, [] => []
  | seen, x :: xs =>
    if key x ∈ seen then dropDuplicatesByAux key seen xs
    else x :: dropDuplicatesByAux key (key x :: seen) xs

/-- `DataFrame.drop_duplicates(subset=[key])`: keep the first row for each key
value, preserving row order. -/
def dropDuplicatesBy {α β : Type} [DecidableEq β] (key : α → β) (l : List α) :
    List α :=
  dropDuplicatesByAux key [] l

/-- `DataFrame.drop_duplicates()`: keep the first occurrence of each full row,
preserving row order. -/
def dropDuplicates {α : Type} [DecidableEq α] (l : List α) : List α :=
  dropDuplicatesBy id l

namespace AgroDatabase

/-- The storage-internal columns Cosmos DB adds to every stored item,
dropped by every query helper before returning
(`result.drop(columns= ['id', '_rid', '_self', '_etag', '_attachments', '_ts'])`). -/
def internalFields : List String := ["id", "_rid", "_self", "_etag", "_attachments", "_ts"]

/-- Remove the storage-internal attributes from one row. -/
def stripInternal (r : Rec) : Rec :=
  r.filter (fun kv => !(internalFields.contains kv.1))

/-- The guarded column drop each query helper performs:
`if not result.shape[0] == 0 and not result.shape[1] == 0: result.drop(columns= [...])`.
An empty item list gives an empty `DataFrame` (no rows, no columns), which is
returned untouched; a non-empty one has every internal column dropped. -/
def dropInternalCols (rows : List Rec) : List Rec :=
  if rows.isEmpty then rows else rows.map stripInternal

/-- The `c.FIELD LIKE '%pat%'` row predicate: case-sensitive substring match on
the `field` attribute; rows lacking the attribute do not match. -/
def likeMatch (field pat : String) (r : Rec) : Bool :=
  match r.lookup field with
  | some v => containsSubstr v pat
  | none => false

/-- `AgroDatabase.get_formulated_products_by_class`:
`SELECT * FROM c WHERE c.CLASSE LIKE '%classe%' OFFSET 0 LIMIT 1000`
on `produtosformulados`, then the guarded internal-column drop. -/
def get_formulated_products_by_class (db : Database) (classe : String) : List Rec :=
  dropInternalCols ((db.formulados.filter (likeMatch "CLASSE" classe)).take 1000)

/-- `AgroDatabase.get_formulated_products_by_cientific_prague_name`:
`SELECT * FROM c WHERE c.PRAGA_NOME_CIENTIFICO LIKE '%name%' OFFSET 0 LIMIT 1000`
on `produtosformulados`, then the guarded internal-column drop. -/
def get_formulated_products_by_cientific_prague_name (db : Database) (name : String) :
    List Rec :=
  dropInternalCols ((db.formulados.filter (likeMatch "PRAGA_NOME_CIENTIFICO" name)).take 1000)

/-- `AgroDatabase.get_formulated_products_by_common_prague_name`:
`SELECT * FROM c WHERE c.PRAGA_NOME_COMUM LIKE '%name%' OFFSET 0 LIMIT 1000`
on `produtosformulados`, then the guarded internal-column drop. -/
def get_formulated_products_by_common_prague_name (db : Database) (name : String) :
    List Rec :=
  dropInternalCols ((db.formulados.filter (likeMatch "PRAGA_NOME_COMUM" name)).take 1000)

/-- `AgroDatabase.get_technical_products_by_class`:
`SELECT * FROM c WHERE c.CLASSE LIKE '%classe%'` on `produtostecnicos`
(no `LIMIT` clause), then the guarded internal-column drop. -/
def get_technical_products_by_class (db : Database) (classe : String) : List Rec :=
  dropInternalCols (db.tecnicos.filter (likeMatch "CLASSE" classe))

/-- The accumulation loop shared by every plural query:
`data = None; for cls in names: data = single(cls) if data is None else concat(data, single(cls))`.
The result is `none` exactly when the loop body never ran, i.e. the Python
variable `data` is still `None` after the loop. -/
def concatQuery (single : String → List Rec) (names : List String) : Option (List Rec) :=
  names.foldl
    (fun acc n =>
      match acc with
      | none => some (single n)
      | some d => some (d ++ single n))
    none

/-- `AgroDatabase.get_formulated_products_by_cientific_prague_names`:
the accumulation loop over the single-name query followed by
`data.drop_duplicates(inplace= True)`; when `data` is still `None`
(empty name list) that attribute access raises, modelled as `none`. -/
def get_formulated_products_by_cientific_prague_names (db : Database)
    (names : List String) : Option (List Rec) :=
  match concatQuery (get_formulated_products_by_cientific_prague_name db) names with
  | none => none
  | some d => some (dropDuplicates d)

/-- `AgroDatabase.get_formulated_products_by_common_prague_names`:
same shape as the scientific-name plural query. -/
def get_formulated_products_by_common_prague_names (db : Database)
    (names : List String) : Option (List Rec) :=
  match concatQuery (get_formulated_products_by_common_prague_name db) names with
  | none => none
  | some d => some (dropDuplicates d)

/-- `AgroDatabase.get_technical_products_by_classes`:
same accumulation loop over the technical-products class query. -/
def get_technical_products_by_classes (db : Database)
    (classes : List String) : Option (List Rec) :=
  match concatQuery (get_technical_products_by_class db) classes with
  | none => none
  | some d => some (dropDuplicates d)

end AgroDatabase

/-- `Series.sample(n)` with an explicit RNG seed: fails (`ValueError`, modelled
as `none`) when `n` exceeds the population; otherwise returns `n` entries at
distinct positions, selected as a prefix of a seed-chosen rotation. -/
def pandasSample {α : Type} (xs : List α) (n : Nat) (seed : Nat) : Option (List α) :=
  if n ≤ xs.length then some ((xs.rotate (seed % xs.length)).take n) else none

/-- The `MARCA_COMERCIAL` (brand name) column of a row. -/
def marcaComercial (r : Rec) : String :=
  (r.lookup "MARCA_COMERCIAL").getD ""

/-- The tail of both lookup functions:
`df.drop_duplicates(subset= ["MARCA_COMERCIAL"], inplace= True)` followed by
`df['MARCA_COMERCIAL'].sample(5).tolist()`.
On an empty frame the `drop_duplicates(subset=...)` call raises `KeyError`
(and sampling 5 from 0 rows would raise `ValueError`), modelled as `none`;
otherwise the deduplicated brand column is sampled, which in turn fails when
fewer than 5 distinct brands remain. -/
def brandSample (rows : List Rec) (seed : Nat) : Option (List String) :=
  if rows.isEmpty then none
  else pandasSample ((dropDuplicatesBy marcaComercial rows).map marcaComercial) 5 seed

/-- The common-name normalization `'-'.join(name.lower().split(' '))`. -/
def normalize_common_name (s : String) : String :=
  ⟨joinHyphen (splitOnSpace (s.data.map lowerChar))⟩

/-- A pest-name argument: a single string or a list of strings
(the `str` / `list` branches of the Python `type(...)` dispatch). -/
abbrev PestName := String ⊕ List String

/-- `get_pesticides_by_crop_and_common_name` from `openai-model.py`.
The first component of the result is the post-call contents of the caller's
`common_name` argument: a `str` argument is rebound locally (caller unaffected),
while a `list` argument has each element overwritten in place with its
normalized value (caller's list mutated). The second component is the
sampled brand list, `none` where the source raises. -/
def get_pesticides_by_crop_and_common_name (crop : String) (common_name : PestName)
    (db : Database) (seed : Nat) : PestName × Option (List String) :=
  match common_name with
  | .inl s =>
    let key : String := ⟨joinHyphen (splitOnSpace (s.data.map lowerChar))⟩
    (.inl s,
      brandSample (AgroDatabase.get_formulated_products_by_common_prague_name db key) seed)
  | .inr l =>
    let l2 := l.map (fun s => (⟨joinHyphen (splitOnSpace (s.data.map lowerChar))⟩ : String))
    (.inr l2,
      match AgroDatabase.get_formulated_products_by_common_prague_names db l2 with
      | none => none
      | some rows => brandSample rows seed)

/-- `get_pesticides_by_crop_and_scientific_name` from `openai-model.py`.
No normalization: the scientific name is passed to the store unchanged.
The first component is the post-call contents of the caller's argument
(never mutated by this function). -/
def get_pesticides_by_crop_and_scientific_name (crop : String) (scientific_name : PestName)
    (db : Database) (seed : Nat) : PestName × Option (List String) :=
  match scientific_name with
  | .inl s =>
    (.inl s,
      brandSample (AgroDatabase.get_formulated_products_by_cientific_prague_name db s) seed)
  | .inr l =>
    (.inr l,
      match AgroDatabase.get_formulated_products_by_cientific_prague_names db l with
      | none => none
      | some rows => brandSample rows seed)

/-- One tool call of a `requires_action` event: id, function name, and the
parsed argument mapping (`crop` plus the pest-name argument). -/
structure ToolCall where
  id : String
  name : String
  crop : String
  pest : PestName
  deriving DecidableEq

/-- One entry of the `tool_outputs` batch:
`{"tool_call_id": tool.id, "output": ...}`. -/
structure ToolOutput where
  tool_call_id : String
  output : List String
  deriving DecidableEq

/-- Whether a function name is in the dispatch table of
`EventHandler.handle_requires_action` (the `if`/`elif` chain). -/
def knownTool (c : ToolCall) : Bool :=
  c.name == "pesticide_by_crop_and_common_name"
    || c.name == "pesticide_by_crop_and_scientific_name"

/-- The single dispatched invocation for one tool call: route by function name
to the corresponding lookup function and keep its result payload. -/
def dispatchOne (c : ToolCall) (db : Database) (seed : Nat) : Option (List String) :=
  if c.name == "pesticide_by_crop_and_common_name" then
    (get_pesticides_by_crop_and_common_name c.crop c.pest db seed).2
  else if c.name == "pesticide_by_crop_and_scientific_name" then
    (get_pesticides_by_crop_and_scientific_name c.crop c.pest db seed).2
  else none

/-- The loop of `EventHandler.handle_requires_action`: walk the tool calls in
order; a known name appends one output keyed by the call's id (an exception in
the lookup aborts the whole handler — nothing is submitted, modelled as
`none`); an unknown name is silently skipped. -/
def dispatchCalls : List ToolCall → Database → Nat → Option (List ToolOutput)
  | [], _, _ => some []
  | c :: rest, db, seed =>
    if knownTool c then
      match dispatchOne c db seed with
      | none => none
      | some out => (dispatchCalls rest db seed).map (fun outs => ⟨c.id, out⟩ :: outs)
    else
      dispatchCalls rest db seed

/-- `EventHandler.submit_tool_outputs`: one batch call carrying the whole
output list back to the run; the batch submitted is exactly the list built by
the dispatch loop. -/
def submit_tool_outputs (tool_outputs : List ToolOutput) : List ToolOutput :=
  tool_outputs

/-- `EventHandler.handle_requires_action`: build all tool outputs, then submit
them together in a single batch call. The result is the submitted batch. -/
def handle_requires_action (calls : List ToolCall) (db : Database) (seed : Nat) :
    Option (List ToolOutput) :=
  (dispatchCalls calls db seed).map submit_tool_outputs

/-- A demonstration stored item, carrying the Cosmos-internal fields and the
domain attributes used by the queries, with the given brand name. -/
def demoRecord (tag : String) : Rec :=
  [("id", tag), ("_rid", tag), ("_self", tag), ("_etag", tag),
   ("_attachments", tag), ("_ts", tag),
   ("MARCA_COMERCIAL", tag),
   ("CLASSE", "Inseticida"),
   ("PRAGA_NOME_COMUM", "lagarta-do-cartucho"),
   ("PRAGA_NOME_CIENTIFICO", "Spodoptera frugiperda")]

/-- A concrete store with five formulated products (five distinct brands, all
matching the pest "lagarta" by common name and "Spodoptera frugiperda" by
scientific name) and one technical product. -/
def demoDb : Database :=
  { formulados := [demoRecord "Marca1", demoRecord "Marca2", demoRecord "Marca3",
                   demoRecord "Marca4", demoRecord "Marca5"],
    tecnicos := [demoRecord "Marca1"] }

/-- A concrete store whose matching rows carry a single distinct brand. -/
def smallDb : Database :=
  { formulados := [demoRecord "Marca1", demoRecord "Marca1"], tecnicos := [] }

/-- The first tool call of the specification's dispatcher scenario. -/
def demoToolCall1 : ToolCall :=
  ⟨"t1", "pesticide_by_crop_and_common_name", "soja", Sum.inl "lagarta"⟩

/-- The second tool call of the specification's dispatcher scenario. -/
def demoToolCall2 : ToolCall :=
  ⟨"t2", "pesticide_by_crop_and_scientific_name", "soja", Sum.inl "Spodoptera frugiperda"⟩

/-- A tool call whose function name is in the dispatch table but whose pest
name "xyz" has an empty match set, so the dispatched lookup raises. -/
def demoToolCallBad : ToolCall :=
  ⟨"t3", "pesticide_by_crop_and_common_name", "soja", Sum.inl "xyz"⟩

/-! ## Helper lemmas -/

lemma dropInternalCols_length (rows : List Rec) :
    (AgroDatabase.dropInternalCols rows).length = rows.length := by
  cases rows with
  | nil => rfl
  | cons r rs => simp [AgroDatabase.dropInternalCols]

lemma stripInternal_all (r : Rec) :
    (AgroDatabase.stripInternal r).all
      (fun kv => !(AgroDatabase.internalFields.contains kv.1)) = true := by
  rw [List.all_eq_true]
  intro kv hkv
  exact (List.mem_filter.mp hkv).2

lemma dropInternalCols_all (rows : List Rec) :
    (AgroDatabase.dropInternalCols rows).all
      (fun r => r.all fun kv => !(AgroDatabase.internalFields.contains kv.1)) = true := by
  cases rows with
  | nil => rfl
  | cons r rs =>
    rw [List.all_eq_true]
    intro x hx
    have hx2 : x ∈ (r :: rs).map AgroDatabase.stripInternal := by
      simpa [AgroDatabase.dropInternalCols] using hx
    obtain ⟨y, _, rfl⟩ := List.mem_map.mp hx2
    exact stripInternal_all y

lemma concatQuery_foldl (f : String → List Rec) (l : List String) (d : List Rec) :
    l.foldl
      (fun acc n =>
        match acc with
        | none => some (f n)
        | some d => some (d ++ f n))
      (some d) = some (d ++ l.flatMap f) := by
  induction l generalizing d with
  | nil => simp
  | cons n rest ih => simp [List.foldl_cons, ih]

lemma concatQuery_eq (f : String → List Rec) (n : String) (rest : List String) :
    AgroDatabase.concatQuery f (n :: rest) = some ((n :: rest).flatMap f) := by
  show List.foldl _ (some (f n)) rest = _
  rw [concatQuery_foldl f rest (f n)]
  simp

lemma dropDuplicatesByAux_nodup {α β : Type} [DecidableEq β] (key : α → β) :
    ∀ (l : List α) (seen : List β),
      ((dropDuplicatesByAux key seen l).map key).Nodup
      ∧ ∀ b ∈ (dropDuplicatesByAux key seen l).map key, b ∉ seen := by
  intro l
  induction l with
  | nil =>
    intro seen
    exact ⟨by simp [dropDuplicatesByAux], by simp [dropDuplicatesByAux]⟩
  | cons x xs ih =>
    intro seen
    by_cases h : key x ∈ seen
    · simpa [dropDuplicatesByAux, h] using ih seen
    · have h2 := ih (key x :: seen)
      have hstep : dropDuplicatesByAux key seen (x :: xs)
          = x :: dropDuplicatesByAux key (key x :: seen) xs := by
        simp [dropDuplicatesByAux, h]
      constructor
      · rw [hstep, List.map_cons]
        refine List.nodup_cons.mpr ⟨?_, h2.1⟩
        intro hmem
        exact (h2.2 _ hmem) (List.mem_cons_self _ _)
      · intro b hb
        rw [hstep, List.map_cons] at hb
        rcases List.mem_cons.mp hb with rfl | hb2
        · exact h
        · exact fun hbs => (h2.2 b hb2) (List.mem_cons_of_mem _ hbs)

lemma dropDuplicatesBy_map_key_nodup {α β : Type} [DecidableEq β] (key : α → β)
    (l : List α) : ((dropDuplicatesBy key l).map key).Nodup :=
  (dropDuplicatesByAux_nodup key l []).1

lemma dropDuplicates_nodup {α : Type} [DecidableEq α] (l : List α) :
    (dropDuplicates l).Nodup := by
  have h := dropDuplicatesBy_map_key_nodup (id : α → α) l
  simpa [dropDuplicates] using h

/-! ## Claim theorems -/

/-- Claim C1 (code evidence): on an empty match set the Lookup Service calls do
NOT return an empty list with a distinct `EmptyResultError` signal — the
pipeline aborts with an uncaught exception (modelled as `none`): with the pest
name "xyz" the store query over `demoDb` is empty, and both
`get_pesticides_by_crop_and_common_name` and
`get_pesticides_by_crop_and_scientific_name` raise
(`drop_duplicates(subset=...)` / `sample(5)` on an empty frame). -/
theorem empty_match_set_raises :
    AgroDatabase.get_formulated_products_by_common_prague_name demoDb "xyz" = []
    ∧ (get_pesticides_by_crop_and_common_name "soja" (Sum.inl "xyz") demoDb 0).2 = none
    ∧ (get_pesticides_by_crop_and_scientific_name "soja" (Sum.inl "xyz") demoDb 0).2 = none :=
  ⟨rfl, rfl, rfl⟩

/-- Claim C2 (code evidence): a non-empty match set with fewer than five
distinct brand names makes the Lookup Service raise inside `sample(5)`
(`ValueError`, modelled as `none`) instead of returning a list of at most five
entries: over `smallDb` the match set for "lagarta" is non-empty (two rows, one
distinct brand) yet the call produces no list. -/
theorem small_match_set_raises :
    AgroDatabase.get_formulated_products_by_common_prague_name smallDb "lagarta" ≠ []
    ∧ (get_pesticides_by_crop_and_common_name "soja" (Sum.inl "lagarta") smallDb 0).2 = none :=
  ⟨by decide, rfl⟩

/-- Claim C3 counterexample: with an empty list of predicate values the plural
Record Store queries do not return an empty Result Set — the Python variable
`data` is still `None` after the loop and `data.drop_duplicates(...)` raises
`AttributeError` (modelled as `none`). -/
theorem empty_name_list_counterexample :
    AgroDatabase.get_formulated_products_by_common_prague_names demoDb [] = none
    ∧ AgroDatabase.get_formulated_products_by_cientific_prague_names demoDb [] = none :=
  ⟨rfl, rfl⟩

/-- Claim C3 (amended): for every database, calling a plural Record Store query
with an empty list of predicate values fails with an error
(`AttributeError` on `None.drop_duplicates`, modelled as `none`) rather than
returning an empty Result Set. -/
theorem empty_name_list_raises :
    ∀ db : Database,
      AgroDatabase.get_formulated_products_by_common_prague_names db [] = none
      ∧ AgroDatabase.get_formulated_products_by_cientific_prague_names db [] = none :=
  fun _ => ⟨rfl, rfl⟩

/-- Claim C4 counterexample: a batch consisting of one tool call whose function
name IS in the dispatch table ("pesticide_by_crop_and_common_name") does not
produce one Tool Output per Tool Call: its pest name "xyz" has an empty match
set, the dispatched lookup raises, the handler has no try/except, and the whole
event aborts — zero outputs are produced and nothing is submitted
(modelled as `none`), so no output keyed by "t3" exists. -/
theorem dispatcher_drops_batch_counterexample :
    knownTool demoToolCallBad = true
    ∧ handle_requires_action [demoToolCallBad] demoDb 0 = none :=
  ⟨rfl, rfl⟩

/-- Claim C4 (amended): for every batch of tool calls whose function names are
all in the dispatch table AND whose dispatched lookups all return (a raising
lookup instead aborts the handler, which submits nothing), the Tool Dispatcher
produces exactly one Tool Output per Tool Call, keyed by that call's id, in the
order received, submitted as one batch; in particular the two calls "t1"
(common name) and "t2" (scientific name) yield exactly two outputs with ids
"t1" and "t2" in that order. -/
theorem dispatcher_one_output_per_call :
    (∀ (calls : List ToolCall) (db : Database) (seed : Nat),
      (∀ c ∈ calls, knownTool c = true) →
      (∀ c ∈ calls, dispatchOne c db seed ≠ none) →
      ∃ outs, handle_requires_action calls db seed = some outs
        ∧ outs.map ToolOutput.tool_call_id = calls.map ToolCall.id)
    ∧ (∃ out1 out2,
        handle_requires_action [demoToolCall1, demoToolCall2] demoDb 0
          = some [⟨"t1", out1⟩, ⟨"t2", out2⟩]) := by
  constructor
  · have main : ∀ (calls : List ToolCall) (db : Database) (seed : Nat),
        (∀ c ∈ calls, knownTool c = true) →
        (∀ c ∈ calls, dispatchOne c db seed ≠ none) →
        ∃ outs, dispatchCalls calls db seed = some outs
          ∧ outs.map ToolOutput.tool_call_id = calls.map ToolCall.id := by
      intro calls db seed
      induction calls with
      | nil => intro _ _; exact ⟨[], rfl, rfl⟩
      | cons c rest ih =>
        intro h1 h2
        have hk : knownTool c = true := h1 c (List.mem_cons_self _ _)
        have hd : dispatchOne c db seed ≠ none := h2 c (List.mem_cons_self _ _)
        obtain ⟨out, hout⟩ : ∃ out, dispatchOne c db seed = some out := by
          cases hval : dispatchOne c db seed with
          | none => exact absurd hval hd
          | some v => exact ⟨v, rfl⟩
        obtain ⟨outs, houts, hids⟩ :=
          ih (fun x hx => h1 x (List.mem_cons_of_mem _ hx))
             (fun x hx => h2 x (List.mem_cons_of_mem _ hx))
        refine ⟨⟨c.id, out⟩ :: outs, ?_, ?_⟩
        · simp [dispatchCalls, hk, hout, houts]
        · simp [hids]
    intro calls db seed h1 h2
    obtain ⟨outs, houts, hids⟩ := main calls db seed h1 h2
    exact ⟨outs, by simp [handle_requires_action, houts, submit_tool_outputs], hids⟩
  · exact ⟨["Marca1", "Marca2", "Marca3", "Marca4", "Marca5"],
           ["Marca1", "Marca2", "Marca3", "Marca4", "Marca5"], rfl⟩

/-- Claim C4 witness: the general dispatcher property applied to the concrete
two-call scenario over `demoDb`. -/
theorem dispatcher_one_output_per_call_witness :
    ∃ outs, handle_requires_action [demoToolCall1, demoToolCall2] demoDb 0 = some outs
      ∧ outs.map ToolOutput.tool_call_id = [demoToolCall1, demoToolCall2].map ToolCall.id :=
  dispatcher_one_output_per_call.1 [demoToolCall1, demoToolCall2] demoDb 0
    (by decide) (by decide)

/-- Claim C5: common pest names are lower-cased with spaces replaced by hyphens
before the store lookup ("flor de poeta" becomes lookup key "flor-de-poeta"),
while scientific names are passed to the store unchanged. -/
theorem common_name_normalized_scientific_passthrough :
    normalize_common_name "flor de poeta" = "flor-de-poeta"
    ∧ (∀ (crop s : String) (db : Database) (seed : Nat),
        (get_pesticides_by_crop_and_common_name crop (Sum.inl s) db seed).2
          = brandSample
              (AgroDatabase.get_formulated_products_by_common_prague_name db
                (normalize_common_name s)) seed)
    ∧ (∀ (crop s : String) (db : Database) (seed : Nat),
        (get_pesticides_by_crop_and_scientific_name crop (Sum.inl s) db seed).2
          = brandSample
              (AgroDatabase.get_formulated_products_by_cientific_prague_name db s) seed) :=
  ⟨rfl, fun _ _ _ _ => rfl, fun _ _ _ _ => rfl⟩

/-- Claim C6: every Product Record in the Result Set of a predicate query
carries only domain attributes — none of the storage-internal fields
(id, _rid, _self, _etag, _attachments, _ts) survives into the returned rows. -/
theorem predicate_queries_strip_internal_fields :
    ∀ (db : Database) (s : String),
      (AgroDatabase.get_formulated_products_by_class db s).all
        (fun r => r.all fun kv => !(AgroDatabase.internalFields.contains kv.1)) = true
      ∧ (AgroDatabase.get_formulated_products_by_cientific_prague_name db s).all
        (fun r => r.all fun kv => !(AgroDatabase.internalFields.contains kv.1)) = true
      ∧ (AgroDatabase.get_formulated_products_by_common_prague_name db s).all
        (fun r => r.all fun kv => !(AgroDatabase.internalFields.contains kv.1)) = true
      ∧ (AgroDatabase.get_technical_products_by_class db s).all
        (fun r => r.all fun kv => !(AgroDatabase.internalFields.contains kv.1)) = true :=
  fun _ _ =>
    ⟨dropInternalCols_all _, dropInternalCols_all _, dropInternalCols_all _,
     dropInternalCols_all _⟩

/-- Claim C7: for a non-empty value list, a plural Record Store query equals
the single-predicate query run once per value, concatenated in order, with
exact-duplicate rows then dropped across the combined set; the returned rows
have no duplicates (full-row equality). -/
theorem multi_value_query_is_dedup_concat :
    ∀ (db : Database) (names : List String), names ≠ [] →
      (∃ rows,
        AgroDatabase.get_formulated_products_by_common_prague_names db names = some rows
        ∧ rows = dropDuplicates (names.flatMap
            (AgroDatabase.get_formulated_products_by_common_prague_name db))
        ∧ rows.Nodup)
      ∧ (∃ rows,
        AgroDatabase.get_technical_products_by_classes db names = some rows
        ∧ rows = dropDuplicates (names.flatMap
            (AgroDatabase.get_technical_products_by_class db))
        ∧ rows.Nodup) := by
  intro db names hne
  match names with
  | [] => exact absurd rfl hne
  | n :: rest =>
    constructor
    · refine ⟨dropDuplicates ((n :: rest).flatMap
          (AgroDatabase.get_formulated_products_by_common_prague_name db)), ?_, rfl,
          dropDuplicates_nodup _⟩
      unfold AgroDatabase.get_formulated_products_by_common_prague_names
      rw [concatQuery_eq]
    · refine ⟨dropDuplicates ((n :: rest).flatMap
          (AgroDatabase.get_technical_products_by_class db)), ?_, rfl,
          dropDuplicates_nodup _⟩
      unfold AgroDatabase.get_technical_products_by_classes
      rw [concatQuery_eq]

/-- Claim C7 witness: the multi-value query property applied to the concrete
store `demoDb` with the two-element value list. -/
theorem multi_value_query_is_dedup_concat_witness :
    (∃ rows,
      AgroDatabase.get_formulated_products_by_common_prague_names demoDb
          ["lagarta", "campainha"] = some rows
      ∧ rows = dropDuplicates ((["lagarta", "campainha"] : List String).flatMap
          (AgroDatabase.get_formulated_products_by_common_prague_name demoDb))
      ∧ rows.Nodup)
    ∧ (∃ rows,
      AgroDatabase.get_technical_products_by_classes demoDb
          ["lagarta", "campainha"] = some rows
      ∧ rows = dropDuplicates ((["lagarta", "campainha"] : List String).flatMap
          (AgroDatabase.get_technical_products_by_class demoDb))
      ∧ rows.Nodup) :=
  multi_value_query_is_dedup_concat demoDb ["lagarta", "campainha"] (by decide)

/-- Claim C8: every substring query on the formulated-products collection is
capped at 1000 rows, while the class query on the technical-products collection
returns every matching row (no cap). -/
theorem formulated_capped_technical_uncapped :
    ∀ (db : Database) (s : String),
      (AgroDatabase.get_formulated_products_by_class db s).length ≤ 1000
      ∧ (AgroDatabase.get_formulated_products_by_cientific_prague_name db s).length ≤ 1000
      ∧ (AgroDatabase.get_formulated_products_by_common_prague_name db s).length ≤ 1000
      ∧ (AgroDatabase.get_technical_products_by_class db s).length
          = (db.tecnicos.filter (AgroDatabase.likeMatch "CLASSE" s)).length := by
  intro db s
  refine ⟨?_, ?_, ?_, dropInternalCols_length _⟩
  · unfold AgroDatabase.get_formulated_products_by_class
    rw [dropInternalCols_length, List.length_take]
    exact Nat.min_le_left _ _
  · unfold AgroDatabase.get_formulated_products_by_cientific_prague_name
    rw [dropInternalCols_length, List.length_take]
    exact Nat.min_le_left _ _
  · unfold AgroDatabase.get_formulated_products_by_common_prague_name
    rw [dropInternalCols_length, List.length_take]
    exact Nat.min_le_left _ _

/-- Claim C9: the crop argument has no influence on either Lookup Service call:
for any two crop values and the same pest name, database and sampling seed, the
two calls return identical results (the store is queried identically). -/
theorem crop_argument_has_no_influence :
    ∀ (crop1 crop2 : String) (pest : PestName) (db : Database) (seed : Nat),
      get_pesticides_by_crop_and_common_name crop1 pest db seed
        = get_pesticides_by_crop_and_common_name crop2 pest db seed
      ∧ get_pesticides_by_crop_and_scientific_name crop1 pest db seed
        = get_pesticides_by_crop_and_scientific_name crop2 pest db seed := by
  intro crop1 crop2 pest db seed
  cases pest <;> exact ⟨rfl, rfl⟩

/-- Claim C10: when the common-name lookup receives a list, the caller's list
is overwritten in place with the normalized values (post-call contents equal
the normalized list), and normalization is not the identity — so the call is
not side-effect-free for list inputs. -/
theorem list_input_mutated_in_place :
    (∀ (crop : String) (names : List String) (db : Database) (seed : Nat),
      (get_pesticides_by_crop_and_common_name crop (Sum.inr names) db seed).1
        = Sum.inr (names.map normalize_common_name))
    ∧ ["Flor de Poeta"].map normalize_common_name ≠ ["Flor de Poeta"] :=
  ⟨fun _ _ _ _ => rfl, by decide⟩
